import Mathlib

/-!
Verification of the iCE40BitstreamTool device-configuration model
(`src/ice40bitstreamtool/deviceconfig.py`) against its specification.

The Python module is shallowly embedded below.  Conventions used throughout:

* Python exceptions are modelled with `Except PyError`; a `raise Exception(msg)`
  becomes `.error (.exception msg)`, and runtime `IndexError` / `AttributeError`
  failures become `.error .indexError` / `.error .attributeError`.
* Python `list` indexing (which resolves negative indices from the end and
  raises `IndexError` otherwise) is modelled by `pyIdx` / `pyGet` / `pySet`.
* A tile bitmap (the builder's `_config` matrix of `0`/`1` ints, equivalently
  the bitstream's rows of `'0'`/`'1'` characters) is modelled as
  `Grid := List (List Nat)`; the bijective serialization of such a matrix to
  text rows (`_BitstreamBuilder.get_config_string`) is elided.
* Textual parsing done upstream of the modelled logic (`int(s)`, `int(s, 2)`
  and `_get_config_bit_coordinates`, which turn tokens into integers and
  `(x, y)` bit coordinates) is elided: the embedded functions receive the
  already-parsed numbers and coordinates that those helpers produce.
-/

/-- Error outcomes of the Python code: an explicit `raise Exception(msg)`,
a list-index failure, or an attribute lookup failure on an object that lacks
the attribute (e.g. calling `.reset()` on a `list`, or `.freeze()` on `None`). -/
inductive PyError where
  | exception (msg : String)
  | indexError
  | attributeError
deriving DecidableEq

/-- The message of `_Freezable._ensure_not_frozen` (deviceconfig.py line 24). -/
def frozenError : PyError := .exception "You cannot manipulate a frozen object!"

/-- Python list-index resolution for a list of length `n`: a non-negative
index `i` resolves to itself when `i < n`, a negative index resolves to
`n + i` when `0 ≤ n + i`, and anything else is an `IndexError` (`none`). -/
def pyIdx (n : Nat) (i : Int) : Option Nat :=
  if 0 ≤ i then
    if i < (n : Int) then some i.toNat else none
  else
    if 0 ≤ i + (n : Int) then some (i + (n : Int)).toNat else none

/-- Python `l[i]` (read). -/
def pyGet [Inhabited α] (l : List α) (i : Int) : Except PyError α :=
  match pyIdx l.length i with
  | some k => .ok (l.getD k default)
  | none => .error .indexError

/-- Python `l[i] = a` (write). -/
def pySet (l : List α) (i : Int) (a : α) : Except PyError (List α) :=
  match pyIdx l.length i with
  | some k => .ok (l.set k a)
  | none => .error .indexError

/-- Python `dict` insertion `d[k] = v`: an existing key keeps its position and
gets the new value, a new key is appended (dicts preserve insertion order). -/
def dictInsert [BEq α] (l : List (α × β)) (k : α) (v : β) : List (α × β) :=
  if (l.lookup k).isSome then
    l.map (fun p => if p.1 == k then (k, v) else p)
  else
    l ++ [(k, v)]

/-- A bit coordinate `(x, y)` as produced by `_get_config_bit_coordinates`:
`x` is the column and `y` the row of the bit inside a tile's bitmap. -/
abbrev Coord := Nat × Nat

/-- A tile bitmap: `height` rows of `width` bits, each `0` or `1`
(the `_BitstreamBuilder._config` matrix / the bitstream section's rows). -/
abbrev Grid := List (List Nat)

/-- `_BitstreamBuilder.__init__`: a zero bitmap of the given size. -/
def zeroGrid (width height : Nat) : Grid :=
  List.replicate height (List.replicate width 0)

/-- `_BitstreamBuilder.set_bit(coord, value)`: stores `int(bool(value))` at
`_config[coord[1]][coord[0]]` (deviceconfig.py lines 456-458). -/
def set_bit (g : Grid) (c : Coord) (value : Nat) : Grid :=
  let v := if value = 0 then 0 else 1
  g.set c.2 ((g.getD c.2 []).set c.1 v)

/-- Reading one bit `bitstream[coord[1]][coord[0]]` of a bitmap. -/
def get_bit (g : Grid) (c : Coord) : Nat :=
  (g.getD c.2 []).getD c.1 0

/-- The encode loop used for every multi-bit field (e.g. deviceconfig.py
lines 597-599, 600-603, 514-516): for each bound coordinate in order, write
`value & 1` there and shift `value` right by one. -/
def writeFieldBits (g : Grid) (coords : List Coord) (value : Nat) : Grid :=
  match coords with
  | [] => g
  | c :: cs => writeFieldBits (set_bit g c (value % 2)) cs (value / 2)

/-- The decode loop used for every multi-bit field (e.g. deviceconfig.py
lines 617-623, 625-632, 531-537): starting from `bit_config = 0` and
`bit_pos = 1`, or `bit_pos` into the accumulator whenever the bound
coordinate holds a `1`, doubling `bit_pos` at each step.  Written here in
the equivalent least-significant-bit-first recursion. -/
def readFieldBits (g : Grid) (coords : List Coord) : Nat :=
  match coords with
  | [] => 0
  | c :: cs => (if get_bit g c = 1 then 1 else 0) + 2 * readFieldBits g cs

/-- Python truthiness of a boolean field value passed to `set_bit`. -/
def boolInt (b : Bool) : Nat := if b then 1 else 0

/-- The bitmap has exactly `h` rows of exactly `w` bits each. -/
def gridWF (g : Grid) (w h : Nat) : Prop :=
  g.length = h ∧ ∀ row ∈ g, row.length = w

/-- `RoutingResource` (deviceconfig.py lines 947-988): destination net, the
(reversed, least-significant-first) control-bit coordinates, the dict from
candidate source net to its selecting bit pattern, and the live connection.
Nets are identified by their resolved slot in `DeviceConfig._nets` (Python
keys the dict by `Net` object identity). -/
structure RoutingResource where
  dst_net : Nat
  config_bit_coordinates : List Coord
  src_net_to_bit_vals : List (Nat × Nat)
  connection : Option Nat
deriving DecidableEq

/-- `RoutingResource.connect` (lines 960-963): raise unless `src_net` is a
declared candidate, otherwise replace the live connection. -/
def RoutingResource.connect (rr : RoutingResource) (src_net : Nat) :
    Except PyError RoutingResource :=
  if (rr.src_net_to_bit_vals.lookup src_net).isSome then
    .ok { rr with connection := some src_net }
  else
    .error (.exception "Invalid source net")

/-- `RoutingResource.disconnect` (lines 968-969). -/
def RoutingResource.disconnect (rr : RoutingResource) : RoutingResource :=
  { rr with connection := none }

/-- `RoutingResource.get_config_bits` (lines 971-975): `0` when disconnected,
else the connected candidate's stored pattern (the dict lookup cannot miss
for connections made through `connect`/`set_config_bits`). -/
def RoutingResource.get_config_bits (rr : RoutingResource) : Nat :=
  match rr.connection with
  | none => 0
  | some n => (rr.src_net_to_bit_vals.lookup n).getD 0

/-- `RoutingResource.set_config_bits` (lines 977-985): `0` disconnects;
otherwise scan the candidates in insertion order for an exact pattern match
and connect to the first one, raising if none matches. -/
def RoutingResource.set_config_bits (rr : RoutingResource) (bit_config : Nat) :
    Except PyError RoutingResource :=
  if bit_config = 0 then
    .ok { rr with connection := none }
  else
    match rr.src_net_to_bit_vals.find? (fun p => p.2 == bit_config) with
    | some p => .ok { rr with connection := some p.1 }
    | none => .error (.exception "Invalid routing resource bit config")

/-- `Tile._config_bitstream_routing_resources` (lines 506-521): write each
routing switch's and then each buffer's `get_config_bits` value through its
control-bit coordinates with the standard encode loop. -/
def Tile.config_bitstream_routing_resources (g : Grid)
    (switches buffers : List RoutingResource) : Grid :=
  let g1 := switches.foldl
    (fun acc rr => writeFieldBits acc rr.config_bit_coordinates rr.get_config_bits) g
  buffers.foldl
    (fun acc rr => writeFieldBits acc rr.config_bit_coordinates rr.get_config_bits) g1

/-- `Tile._process_bitstream_routing_resources` (lines 523-537): read each
routing resource's control bits from the bitmap with the standard decode
loop and feed them to `set_config_bits` (which may raise). -/
def Tile.process_bitstream_routing_resources (g : Grid)
    (rrs : List RoutingResource) : Except PyError (List RoutingResource) :=
  rrs.mapM (fun rr => rr.set_config_bits (readFieldBits g rr.config_bit_coordinates))

/-- `_LogicTileBitConfig` (deviceconfig.py lines 869-878). -/
structure LogicTileBitConfig where
  width : Nat
  height : Nat
  carry_in_set_bit : Coord
  col_buf_ctrl_set_bits : List Coord
  lc_set_bits : List (List Coord)
  neg_clk_set_bit : Coord
deriving DecidableEq

/-- `_IoTileBitConfig` (deviceconfig.py lines 880-896). -/
structure IoTileBitConfig where
  width : Nat
  height : Nat
  col_buf_ctrl_set_bits : List Coord
  iob_0_pintype : List Coord
  iob_1_pintype : List Coord
  icegate : Coord
  io_ctrl_ie_0 : Coord
  io_ctrl_ie_1 : Coord
  io_ctrl_lvds : Coord
  io_ctrl_ren_0 : Coord
  io_ctrl_ren_1 : Coord
  negclk : Coord
  pll_config : List Coord
deriving DecidableEq

/-- `_RambTileBitConfig` (deviceconfig.py lines 898-906). -/
structure RambTileBitConfig where
  width : Nat
  height : Nat
  col_buf_ctrl_set_bits : List Coord
  negclk : Coord
  ram_config_powerup : Coord
deriving DecidableEq

/-- `_RamtTileBitConfig` (deviceconfig.py lines 908-916). -/
structure RamtTileBitConfig where
  width : Nat
  height : Nat
  negclk : Coord
  ram_config_bits : List Coord
  ram_cascade_bits : List Coord
deriving DecidableEq

/-- The mutable field values and routing resources of a `LogicTile`
(deviceconfig.py lines 585-591). -/
structure LogicTile where
  carry_in_set : Nat
  col_buf_ctrl : Nat
  lc_bits : List Nat
  neg_clk : Bool
  routing_switches : List RoutingResource
  buffers : List RoutingResource
deriving DecidableEq

/-- `LogicTile.generate_bitstream` (lines 593-606): zero bitmap, carry bit,
`col_buf_ctrl` bits, the eight `lc_bits` multi-bit fields (Python pairs
`enumerate(self.lc_bits)` with `lc_set_bits[idx]`; the zip is equivalent for
the equal-length lists the schema constructs), `neg_clk`, then the routing
resources. -/
def LogicTile.generate_bitstream (cfg : LogicTileBitConfig) (t : LogicTile) : Grid :=
  let g := zeroGrid cfg.width cfg.height
  let g := set_bit g cfg.carry_in_set_bit t.carry_in_set
  let g := writeFieldBits g cfg.col_buf_ctrl_set_bits t.col_buf_ctrl
  let g := (t.lc_bits.zip cfg.lc_set_bits).foldl
    (fun acc p => writeFieldBits acc p.2 p.1) g
  let g := set_bit g cfg.neg_clk_set_bit (boolInt t.neg_clk)
  Tile.config_bitstream_routing_resources g t.routing_switches t.buffers

/-- `LogicTile.process_bitstream` (lines 611-635): routing resources first,
then each field read back from the bitmap (Python writes `lc_bits[idx]` in
place for each schema slot; the map is equivalent for the equal-length
lists the schema constructs). -/
def LogicTile.process_bitstream (cfg : LogicTileBitConfig) (t : LogicTile)
    (bitstream : Grid) : Except PyError LogicTile := do
  let sw ← Tile.process_bitstream_routing_resources bitstream t.routing_switches
  let bu ← Tile.process_bitstream_routing_resources bitstream t.buffers
  .ok { carry_in_set := get_bit bitstream cfg.carry_in_set_bit
        col_buf_ctrl := readFieldBits bitstream cfg.col_buf_ctrl_set_bits
        lc_bits := cfg.lc_set_bits.map (fun coords => readFieldBits bitstream coords)
        neg_clk := get_bit bitstream cfg.neg_clk_set_bit != 0
        routing_switches := sw
        buffers := bu }

/-- `LogicTile.reset` (lines 637-642). -/
def LogicTile.reset (t : LogicTile) : LogicTile :=
  { carry_in_set := 0
    col_buf_ctrl := 0
    lc_bits := List.replicate 8 0
    neg_clk := false
    routing_switches := t.routing_switches.map RoutingResource.disconnect
    buffers := t.buffers.map RoutingResource.disconnect }

/-- The mutable field values and routing resources of an `IoTile`
(deviceconfig.py lines 649-662). -/
structure IoTile where
  col_buf_ctrl : Nat
  iob_0_pintype : Nat
  iob_1_pintype : Nat
  icegate : Bool
  io_ctrl_ie_0 : Bool
  io_ctrl_ie_1 : Bool
  io_ctrl_lvds : Bool
  io_ctrl_ren_0 : Bool
  io_ctrl_ren_1 : Bool
  negclk : Bool
  pll_config : Nat
  routing_switches : List RoutingResource
  buffers : List RoutingResource
deriving DecidableEq

/-- `IoTile.generate_bitstream` (lines 664-687).  Note line 666: unlike every
other multi-bit field, `col_buf_ctrl` is written with a single
`set_bit(col_buf_ctrl_set_bits[0], self.col_buf_ctrl)` call — only the
truthiness of the whole value lands on the first bound coordinate and the
remaining seven coordinates stay zero. -/
def IoTile.generate_bitstream (cfg : IoTileBitConfig) (t : IoTile) : Grid :=
  let g := zeroGrid cfg.width cfg.height
  let g := set_bit g (cfg.col_buf_ctrl_set_bits.getD 0 (0, 0)) t.col_buf_ctrl
  let g := writeFieldBits g cfg.iob_0_pintype t.iob_0_pintype
  let g := writeFieldBits g cfg.iob_1_pintype t.iob_1_pintype
  let g := set_bit g cfg.icegate (boolInt t.icegate)
  let g := set_bit g cfg.io_ctrl_ie_0 (boolInt t.io_ctrl_ie_0)
  let g := set_bit g cfg.io_ctrl_ie_1 (boolInt t.io_ctrl_ie_1)
  let g := set_bit g cfg.io_ctrl_lvds (boolInt t.io_ctrl_lvds)
  let g := set_bit g cfg.io_ctrl_ren_0 (boolInt t.io_ctrl_ren_0)
  let g := set_bit g cfg.io_ctrl_ren_1 (boolInt t.io_ctrl_ren_1)
  let g := set_bit g cfg.negclk (boolInt t.negclk)
  let g := writeFieldBits g cfg.pll_config t.pll_config
  Tile.config_bitstream_routing_resources g t.routing_switches t.buffers

/-- `IoTile.process_bitstream` (lines 692-740): routing resources first, then
every field — including all eight `col_buf_ctrl` coordinates — read back
from the bitmap with the standard decode loop. -/
def IoTile.process_bitstream (cfg : IoTileBitConfig) (t : IoTile)
    (bitstream : Grid) : Except PyError IoTile := do
  let sw ← Tile.process_bitstream_routing_resources bitstream t.routing_switches
  let bu ← Tile.process_bitstream_routing_resources bitstream t.buffers
  .ok { col_buf_ctrl := readFieldBits bitstream cfg.col_buf_ctrl_set_bits
        iob_0_pintype := readFieldBits bitstream cfg.iob_0_pintype
        iob_1_pintype := readFieldBits bitstream cfg.iob_1_pintype
        icegate := get_bit bitstream cfg.icegate != 0
        io_ctrl_ie_0 := get_bit bitstream cfg.io_ctrl_ie_0 != 0
        io_ctrl_ie_1 := get_bit bitstream cfg.io_ctrl_ie_1 != 0
        io_ctrl_lvds := get_bit bitstream cfg.io_ctrl_lvds != 0
        io_ctrl_ren_0 := get_bit bitstream cfg.io_ctrl_ren_0 != 0
        io_ctrl_ren_1 := get_bit bitstream cfg.io_ctrl_ren_1 != 0
        negclk := get_bit bitstream cfg.negclk != 0
        pll_config := readFieldBits bitstream cfg.pll_config
        routing_switches := sw
        buffers := bu }

/-- `IoTile.reset` (lines 742-754). -/
def IoTile.reset (t : IoTile) : IoTile :=
  { col_buf_ctrl := 0
    iob_0_pintype := 0
    iob_1_pintype := 0
    icegate := false
    io_ctrl_ie_0 := false
    io_ctrl_ie_1 := false
    io_ctrl_lvds := false
    io_ctrl_ren_0 := false
    io_ctrl_ren_1 := false
    negclk := false
    pll_config := 0
    routing_switches := t.routing_switches.map RoutingResource.disconnect
    buffers := t.buffers.map RoutingResource.disconnect }

/-- The value of a maximal run of decimal digits, as `int()` computes it. -/
def digitsToNat (ds : List Char) : Nat :=
  ds.foldl (fun a c => 10 * a + (c.toNat - 48)) 0

/-- Whether the first list of characters is an initial segment of the second. -/
def charsStartWith : List Char → List Char → Bool
  | [], _ => true
  | _ :: _, [] => false
  | p :: ps, c :: cs => p == c && charsStartWith ps cs

/-- `re.match(pre + r"(\d+)", s)` for a literal pattern `pre`: succeeds when
`s` starts with `pre` followed by at least one digit, returning the integer
value of the maximal digit run after the literal part. -/
def reMatchNum (pre s : String) : Option Nat :=
  if charsStartWith pre.toList s.toList then
    let ds := (s.toList.drop pre.toList.length).takeWhile Char.isDigit
    if ds.isEmpty then none else some (digitsToNat ds)
  else none

/-- One body line of a tile-bit-config section, in tokenized mode: the
field-name token followed by the parsed bit coordinates of the remaining
tokens (each the result of `_get_config_bit_coordinates`). -/
abbrev SchemaLine := String × List Coord

/-- The local variables of `process_logic_tile_bit_config` while consuming
body lines (deviceconfig.py lines 85-88). -/
structure LogicTileBitConfigBuilder where
  carry_in_set_bit : Option Coord
  col_buf_ctrl_set_bits : List (Option Coord)
  lc_set_bits : List (Option (List Coord))
  neg_clk_set_bit : Option Coord
deriving DecidableEq

/-- One iteration of the body-line loop of `process_logic_tile_bit_config`
(lines 89-101): `CarryInSet`, `ColBufCtrl.glb_netwk_<n>`, `LC_<n>` and
`NegClk` populate their slot (indexed writes go through Python list
assignment, so an out-of-range `<n>` is an `IndexError`); any other
field name is ignored. -/
def logicSchemaStep (b : LogicTileBitConfigBuilder) (line : SchemaLine) :
    Except PyError LogicTileBitConfigBuilder :=
  if line.1 = "CarryInSet" then
    .ok { b with carry_in_set_bit := some (line.2.getD 0 (0, 0)) }
  else match reMatchNum "ColBufCtrl.glb_netwk_" line.1 with
  | some n => do
    let l ← pySet b.col_buf_ctrl_set_bits (n : Int) (some (line.2.getD 0 (0, 0)))
    .ok { b with col_buf_ctrl_set_bits := l }
  | none => match reMatchNum "LC_" line.1 with
    | some n => do
      let l ← pySet b.lc_set_bits (n : Int) (some line.2)
      .ok { b with lc_set_bits := l }
    | none =>
      if line.1 = "NegClk" then
        .ok { b with neg_clk_set_bit := some (line.2.getD 0 (0, 0)) }
      else
        .ok b

/-- The body-line loop of `process_logic_tile_bit_config`, starting from the
all-`None` slots of lines 85-88. -/
def logicSchemaFold (lines : List SchemaLine) :
    Except PyError LogicTileBitConfigBuilder :=
  lines.foldlM logicSchemaStep
    { carry_in_set_bit := none
      col_buf_ctrl_set_bits := List.replicate 8 none
      lc_set_bits := List.replicate 8 none
      neg_clk_set_bit := none }

/-- Negation of the completeness test at line 102: every slot populated. -/
def logicBuilderComplete (b : LogicTileBitConfigBuilder) : Bool :=
  b.carry_in_set_bit.isSome && b.col_buf_ctrl_set_bits.all Option.isSome &&
  b.lc_set_bits.all Option.isSome && b.neg_clk_set_bit.isSome

/-- Packing the populated slots into a `_LogicTileBitConfig` (line 104). -/
def LogicTileBitConfigBuilder.build (b : LogicTileBitConfigBuilder)
    (width height : Nat) : LogicTileBitConfig :=
  { width
    height
    carry_in_set_bit := b.carry_in_set_bit.getD (0, 0)
    col_buf_ctrl_set_bits := b.col_buf_ctrl_set_bits.map (fun o => o.getD (0, 0))
    lc_set_bits := b.lc_set_bits.map (fun o => o.getD [])
    neg_clk_set_bit := b.neg_clk_set_bit.getD (0, 0) }

/-- The local variables of `process_io_tile_bit_config` while consuming body
lines (deviceconfig.py lines 119-129). -/
structure IoTileBitConfigBuilder where
  col_buf_ctrl_set_bits : List (Option Coord)
  iob_0_pintype : List (Option Coord)
  iob_1_pintype : List (Option Coord)
  icegate : Option Coord
  io_ctrl_ie_0 : Option Coord
  io_ctrl_ie_1 : Option Coord
  io_ctrl_lvds : Option Coord
  io_ctrl_ren_0 : Option Coord
  io_ctrl_ren_1 : Option Coord
  negclk : Option Coord
  pll_config : List (Option Coord)
deriving DecidableEq

/-- One iteration of the body-line loop of `process_io_tile_bit_config`
(lines 130-160).  `PLL.PLLCONFIG_<n>` is stored at slot `n - 1`, computed
with Python integer subtraction, so `PLL.PLLCONFIG_0` writes through
Python index `-1` (the last slot). -/
def ioSchemaStep (b : IoTileBitConfigBuilder) (line : SchemaLine) :
    Except PyError IoTileBitConfigBuilder :=
  let c := line.2.getD 0 (0, 0)
  match reMatchNum "ColBufCtrl.glb_netwk_" line.1 with
  | some n => do
    let l ← pySet b.col_buf_ctrl_set_bits (n : Int) (some c)
    .ok { b with col_buf_ctrl_set_bits := l }
  | none => match reMatchNum "IOB_0.PINTYPE_" line.1 with
  | some n => do
    let l ← pySet b.iob_0_pintype (n : Int) (some c)
    .ok { b with iob_0_pintype := l }
  | none => match reMatchNum "IOB_1.PINTYPE_" line.1 with
  | some n => do
    let l ← pySet b.iob_1_pintype (n : Int) (some c)
    .ok { b with iob_1_pintype := l }
  | none =>
    if line.1 = "Icegate" then .ok { b with icegate := some c }
    else if line.1 = "IoCtrl.IE_0" then .ok { b with io_ctrl_ie_0 := some c }
    else if line.1 = "IoCtrl.IE_1" then .ok { b with io_ctrl_ie_1 := some c }
    else if line.1 = "IoCtrl.LVDS" then .ok { b with io_ctrl_lvds := some c }
    else if line.1 = "IoCtrl.REN_0" then .ok { b with io_ctrl_ren_0 := some c }
    else if line.1 = "IoCtrl.REN_1" then .ok { b with io_ctrl_ren_1 := some c }
    else if line.1 = "NegClk" then .ok { b with negclk := some c }
    else match reMatchNum "PLL.PLLCONFIG_" line.1 with
    | some n => do
      let l ← pySet b.pll_config ((n : Int) - 1) (some c)
      .ok { b with pll_config := l }
    | none => .ok b

/-- The body-line loop of `process_io_tile_bit_config`, starting from the
all-`None` slots of lines 119-129. -/
def ioSchemaFold (lines : List SchemaLine) : Except PyError IoTileBitConfigBuilder :=
  lines.foldlM ioSchemaStep
    { col_buf_ctrl_set_bits := List.replicate 8 none
      iob_0_pintype := List.replicate 6 none
      iob_1_pintype := List.replicate 6 none
      icegate := none
      io_ctrl_ie_0 := none
      io_ctrl_ie_1 := none
      io_ctrl_lvds := none
      io_ctrl_ren_0 := none
      io_ctrl_ren_1 := none
      negclk := none
      pll_config := List.replicate 9 none }

/-- Negation of the completeness test at line 161: every slot populated. -/
def ioBuilderComplete (b : IoTileBitConfigBuilder) : Bool :=
  b.col_buf_ctrl_set_bits.all Option.isSome && b.iob_0_pintype.all Option.isSome &&
  b.iob_1_pintype.all Option.isSome && b.icegate.isSome && b.io_ctrl_ie_0.isSome &&
  b.io_ctrl_ie_1.isSome && b.io_ctrl_lvds.isSome && b.io_ctrl_ren_0.isSome &&
  b.io_ctrl_ren_1.isSome && b.negclk.isSome && b.pll_config.all Option.isSome

/-- Packing the populated slots into an `_IoTileBitConfig` (lines 163-175). -/
def IoTileBitConfigBuilder.build (b : IoTileBitConfigBuilder)
    (width height : Nat) : IoTileBitConfig :=
  { width
    height
    col_buf_ctrl_set_bits := b.col_buf_ctrl_set_bits.map (fun o => o.getD (0, 0))
    iob_0_pintype := b.iob_0_pintype.map (fun o => o.getD (0, 0))
    iob_1_pintype := b.iob_1_pintype.map (fun o => o.getD (0, 0))
    icegate := b.icegate.getD (0, 0)
    io_ctrl_ie_0 := b.io_ctrl_ie_0.getD (0, 0)
    io_ctrl_ie_1 := b.io_ctrl_ie_1.getD (0, 0)
    io_ctrl_lvds := b.io_ctrl_lvds.getD (0, 0)
    io_ctrl_ren_0 := b.io_ctrl_ren_0.getD (0, 0)
    io_ctrl_ren_1 := b.io_ctrl_ren_1.getD (0, 0)
    negclk := b.negclk.getD (0, 0)
    pll_config := b.pll_config.map (fun o => o.getD (0, 0)) }

/-- The local variables of `process_ramb_tile_bit_config` while consuming
body lines (deviceconfig.py lines 190-192). -/
structure RambTileBitConfigBuilder where
  col_buf_ctrl_set_bits : List (Option Coord)
  negclk : Option Coord
  ram_config_powerup : Option Coord
deriving DecidableEq

/-- One iteration of the body-line loop of `process_ramb_tile_bit_config`
(lines 193-201). -/
def rambSchemaStep (b : RambTileBitConfigBuilder) (line : SchemaLine) :
    Except PyError RambTileBitConfigBuilder :=
  let c := line.2.getD 0 (0, 0)
  match reMatchNum "ColBufCtrl.glb_netwk_" line.1 with
  | some n => do
    let l ← pySet b.col_buf_ctrl_set_bits (n : Int) (some c)
    .ok { b with col_buf_ctrl_set_bits := l }
  | none =>
    if line.1 = "NegClk" then .ok { b with negclk := some c }
    else if line.1 = "RamConfig.PowerUp" then .ok { b with ram_config_powerup := some c }
    else .ok b

/-- The body-line loop of `process_ramb_tile_bit_config`. -/
def rambSchemaFold (lines : List SchemaLine) :
    Except PyError RambTileBitConfigBuilder :=
  lines.foldlM rambSchemaStep
    { col_buf_ctrl_set_bits := List.replicate 8 none
      negclk := none
      ram_config_powerup := none }

/-- Negation of the completeness test at line 202: every slot populated. -/
def rambBuilderComplete (b : RambTileBitConfigBuilder) : Bool :=
  b.col_buf_ctrl_set_bits.all Option.isSome && b.negclk.isSome &&
  b.ram_config_powerup.isSome

/-- Packing the populated slots into a `_RambTileBitConfig` (line 204). -/
def RambTileBitConfigBuilder.build (b : RambTileBitConfigBuilder)
    (width height : Nat) : RambTileBitConfig :=
  { width
    height
    col_buf_ctrl_set_bits := b.col_buf_ctrl_set_bits.map (fun o => o.getD (0, 0))
    negclk := b.negclk.getD (0, 0)
    ram_config_powerup := b.ram_config_powerup.getD (0, 0) }

/-- The local variables of `process_ramt_tile_bit_config` while consuming
body lines (deviceconfig.py lines 219-222). -/
structure RamtTileBitConfigBuilder where
  negclk : Option Coord
  ram_config_bits : List (Option Coord)
  ram_cascade_bits : List (Option Coord)
deriving DecidableEq

/-- One iteration of the body-line loop of `process_ramt_tile_bit_config`
(lines 223-233).  `RamCascade.CBIT_<n>` is stored at slot
`n - ram_cascade_bit_offset` with `ram_cascade_bit_offset = 4`, computed
with Python integer subtraction, so `n < 4` writes through a negative
Python index. -/
def ramtSchemaStep (b : RamtTileBitConfigBuilder) (line : SchemaLine) :
    Except PyError RamtTileBitConfigBuilder :=
  let c := line.2.getD 0 (0, 0)
  if line.1 = "NegClk" then .ok { b with negclk := some c }
  else match reMatchNum "RamCascade.CBIT_" line.1 with
  | some n => do
    let l ← pySet b.ram_cascade_bits ((n : Int) - 4) (some c)
    .ok { b with ram_cascade_bits := l }
  | none => match reMatchNum "RamConfig.CBIT_" line.1 with
    | some n => do
      let l ← pySet b.ram_config_bits (n : Int) (some c)
      .ok { b with ram_config_bits := l }
    | none => .ok b

/-- The body-line loop of `process_ramt_tile_bit_config`. -/
def ramtSchemaFold (lines : List SchemaLine) :
    Except PyError RamtTileBitConfigBuilder :=
  lines.foldlM ramtSchemaStep
    { negclk := none
      ram_config_bits := List.replicate 4 none
      ram_cascade_bits := List.replicate 4 none }

/-- Negation of the completeness test at line 234: every slot populated. -/
def ramtBuilderComplete (b : RamtTileBitConfigBuilder) : Bool :=
  b.negclk.isSome && b.ram_config_bits.all Option.isSome &&
  b.ram_cascade_bits.all Option.isSome

/-- Packing the populated slots into a `_RamtTileBitConfig` (line 236). -/
def RamtTileBitConfigBuilder.build (b : RamtTileBitConfigBuilder)
    (width height : Nat) : RamtTileBitConfig :=
  { width
    height
    negclk := b.negclk.getD (0, 0)
    ram_config_bits := b.ram_config_bits.map (fun o => o.getD (0, 0))
    ram_cascade_bits := b.ram_cascade_bits.map (fun o => o.getD (0, 0)) }

/-- The four concrete `Tile` subclasses. -/
inductive TileKind where
  | logic
  | io
  | ramb
  | ramt
deriving DecidableEq

/-- A tile as stored in the `DeviceConfig` grid: its kind, the `(x, y)` it was
constructed with, the (possibly `None`) schema reference handed to its
constructor, its `_Freezable` flag, and the wires and routing resources
later ingestion appends (deviceconfig.py lines 466-477, 580-591, 644-662,
756-766, 804-814).  The per-kind mutable field values, which no
`DeviceConfig`-level claim touches, are modelled separately by `LogicTile`
and `IoTile` above. -/
structure PlacedTile where
  kind : TileKind
  x : Int
  y : Int
  logic_cfg : Option LogicTileBitConfig
  io_cfg : Option IoTileBitConfig
  ramb_cfg : Option RambTileBitConfig
  ramt_cfg : Option RamtTileBitConfig
  frozen : Bool
  wires : List String
  routing_switches : List RoutingResource
  buffers : List RoutingResource
deriving DecidableEq

/-- `LogicTile(x, y, logic_tile_bit_config)`: freshly constructed, unfrozen,
with no wires or routing resources; the schema argument may be `None`. -/
def LogicTile.place (x y : Int) (cfg : Option LogicTileBitConfig) : PlacedTile :=
  { kind := .logic, x, y, logic_cfg := cfg, io_cfg := none, ramb_cfg := none,
    ramt_cfg := none, frozen := false, wires := [], routing_switches := [], buffers := [] }

/-- `IoTile(x, y, io_tile_bit_config)`: freshly constructed. -/
def IoTile.place (x y : Int) (cfg : Option IoTileBitConfig) : PlacedTile :=
  { kind := .io, x, y, logic_cfg := none, io_cfg := cfg, ramb_cfg := none,
    ramt_cfg := none, frozen := false, wires := [], routing_switches := [], buffers := [] }

/-- `RambTile(x, y, ramb_tile_bit_config)`: freshly constructed. -/
def RambTile.place (x y : Int) (cfg : Option RambTileBitConfig) : PlacedTile :=
  { kind := .ramb, x, y, logic_cfg := none, io_cfg := none, ramb_cfg := cfg,
    ramt_cfg := none, frozen := false, wires := [], routing_switches := [], buffers := [] }

/-- `RamtTile(x, y, ramt_tile_bit_config)`: freshly constructed. -/
def RamtTile.place (x y : Int) (cfg : Option RamtTileBitConfig) : PlacedTile :=
  { kind := .ramt, x, y, logic_cfg := none, io_cfg := none, ramb_cfg := none,
    ramt_cfg := cfg, frozen := false, wires := [], routing_switches := [], buffers := [] }

/-- `Net` (deviceconfig.py lines 925-945): its index, the dict mapping each
participating tile to the wire it carries there (tiles keyed here by their
resolved grid cell `(row, column)`, standing for Python's object identity),
and its `_Freezable` flag. -/
structure Net where
  index : Int
  wires : List ((Nat × Nat) × String)
  frozen : Bool
deriving DecidableEq

/-- `Net.freeze`. -/
def Net.freeze (n : Net) : Net := { n with frozen := true }

/-- `Tile.freeze` (inherited from `_Freezable`). -/
def PlacedTile.freeze (t : PlacedTile) : PlacedTile := { t with frozen := true }

/-- `DeviceConfig` state (deviceconfig.py lines 31-51): the `_Freezable`
flag, device type, the `height × width` tile grid (rows of optional tiles),
the net array of `num_nets` optional slots, the name-keyed wire table
(modelled as the list of names, the only content of a `Wire`), and the four
optional schemas. -/
structure DeviceConfig where
  frozen : Bool
  device_type : String
  tiles : List (List (Option PlacedTile))
  nets : List (Option Net)
  wires : List String
  logic_tile_bit_config : Option LogicTileBitConfig
  io_tile_bit_config : Option IoTileBitConfig
  ramb_tile_bits_config : Option RambTileBitConfig
  ramt_tile_bits_config : Option RamtTileBitConfig
deriving DecidableEq

/-- `DeviceConfig(device_config_section)` after a `.device` header with the
given type, width, height and net count: empty grid and net array, no
wires, no schemas, unfrozen. -/
def DeviceConfig.init (device_type : String) (width height num_nets : Nat) :
    DeviceConfig :=
  { frozen := false
    device_type
    tiles := List.replicate height (List.replicate width none)
    nets := List.replicate num_nets none
    wires := []
    logic_tile_bit_config := none
    io_tile_bit_config := none
    ramb_tile_bits_config := none
    ramt_tile_bits_config := none }

/-- `DeviceConfig.process_logic_tile_bit_config` (deviceconfig.py lines
72-104): frozen check, body-line loop, completeness check, store the schema.
The `(width, height)` pair is the parsed two-token header. -/
def DeviceConfig.process_logic_tile_bit_config (dc : DeviceConfig)
    (width height : Nat) (lines : List SchemaLine) : Except PyError DeviceConfig :=
  if dc.frozen then .error frozenError
  else do
    let b ← logicSchemaFold lines
    if logicBuilderComplete b then
      .ok { dc with logic_tile_bit_config := some (b.build width height) }
    else
      .error (.exception "Incomplete logic tile config")

/-- `DeviceConfig.process_io_tile_bit_config` (lines 106-175). -/
def DeviceConfig.process_io_tile_bit_config (dc : DeviceConfig)
    (width height : Nat) (lines : List SchemaLine) : Except PyError DeviceConfig :=
  if dc.frozen then .error frozenError
  else do
    let b ← ioSchemaFold lines
    if ioBuilderComplete b then
      .ok { dc with io_tile_bit_config := some (b.build width height) }
    else
      .error (.exception "Incomplete IO tile config")

/-- `DeviceConfig.process_ramb_tile_bit_config` (lines 177-204). -/
def DeviceConfig.process_ramb_tile_bit_config (dc : DeviceConfig)
    (width height : Nat) (lines : List SchemaLine) : Except PyError DeviceConfig :=
  if dc.frozen then .error frozenError
  else do
    let b ← rambSchemaFold lines
    if rambBuilderComplete b then
      .ok { dc with ramb_tile_bits_config := some (b.build width height) }
    else
      .error (.exception "Incomplete ramb tile bits config")

/-- `DeviceConfig.process_ramt_tile_bit_config` (lines 206-236). -/
def DeviceConfig.process_ramt_tile_bit_config (dc : DeviceConfig)
    (width height : Nat) (lines : List SchemaLine) : Except PyError DeviceConfig :=
  if dc.frozen then .error frozenError
  else do
    let b ← ramtSchemaFold lines
    if ramtBuilderComplete b then
      .ok { dc with ramt_tile_bits_config := some (b.build width height) }
    else
      .error (.exception "Incomplete ramt tile bits config")

/-- `DeviceConfig.process_logic_tile` (deviceconfig.py lines 238-250): frozen
check, then `self._tiles[y][x] = LogicTile(x, y, self._logic_tile_bit_config)`
with Python list indexing; there is no check that the schema was ingested.
The `(x, y)` pair is the parsed two-token header. -/
def DeviceConfig.process_logic_tile (dc : DeviceConfig) (x y : Int) :
    Except PyError DeviceConfig :=
  if dc.frozen then .error frozenError
  else do
    let row ← pyGet dc.tiles y
    let row ← pySet row x (some (LogicTile.place x y dc.logic_tile_bit_config))
    let tiles ← pySet dc.tiles y row
    .ok { dc with tiles := tiles }

/-- `DeviceConfig.process_io_tile` (lines 252-264). -/
def DeviceConfig.process_io_tile (dc : DeviceConfig) (x y : Int) :
    Except PyError DeviceConfig :=
  if dc.frozen then .error frozenError
  else do
    let row ← pyGet dc.tiles y
    let row ← pySet row x (some (IoTile.place x y dc.io_tile_bit_config))
    let tiles ← pySet dc.tiles y row
    .ok { dc with tiles := tiles }

/-- `DeviceConfig.process_ramb_tile` (lines 266-278). -/
def DeviceConfig.process_ramb_tile (dc : DeviceConfig) (x y : Int) :
    Except PyError DeviceConfig :=
  if dc.frozen then .error frozenError
  else do
    let row ← pyGet dc.tiles y
    let row ← pySet row x (some (RambTile.place x y dc.ramb_tile_bits_config))
    let tiles ← pySet dc.tiles y row
    .ok { dc with tiles := tiles }

/-- `DeviceConfig.process_ramt_tile` (lines 280-292). -/
def DeviceConfig.process_ramt_tile (dc : DeviceConfig) (x y : Int) :
    Except PyError DeviceConfig :=
  if dc.frozen then .error frozenError
  else do
    let row ← pyGet dc.tiles y
    let row ← pySet row x (some (RamtTile.place x y dc.ramt_tile_bits_config))
    let tiles ← pySet dc.tiles y row
    .ok { dc with tiles := tiles }

/-- One body line of a `.net` section: the parsed `(x, y, wireName)` triple. -/
abbrev NetLine := Int × Int × String

/-- Resolving and updating the grid cell `self._tiles[y][x]` in one step,
returning the updated grid together with the resolved `(row, column)`. -/
def gridModify (tiles : List (List (Option PlacedTile))) (x y : Int)
    (f : Option PlacedTile → Except PyError (Option PlacedTile)) :
    Except PyError (List (List (Option PlacedTile)) × Nat × Nat) :=
  match pyIdx tiles.length y with
  | none => .error .indexError
  | some ry =>
    let row := tiles.getD ry []
    match pyIdx row.length x with
    | none => .error .indexError
    | some rx => do
      let cell ← f (row.getD rx none)
      .ok (tiles.set ry (row.set rx cell), ry, rx)

/-- One iteration of the body loop of `process_net` (deviceconfig.py lines
303-313): create-or-reuse the wire by name, `self._tiles[y][x].add_wire(wire)`
(an empty cell is `None` and has no `add_wire`; `add_wire` itself checks the
tile's frozen flag), and `net.add_wire(tile, wire)` (checking the net's
frozen flag, then a dict insert keyed by the tile). -/
def processNetLine (st : DeviceConfig × Net) (line : NetLine) :
    Except PyError (DeviceConfig × Net) := do
  let (dc, net) := st
  let (x, y, name) := line
  let dc := if dc.wires.contains name then dc else { dc with wires := dc.wires ++ [name] }
  let r ← gridModify dc.tiles x y (fun cell =>
    match cell with
    | none => .error .attributeError
    | some t =>
      if t.frozen then .error frozenError
      else .ok (some { t with wires := t.wires ++ [name] }))
  if net.frozen then .error frozenError
  else
    .ok ({ dc with tiles := r.1 },
         { net with wires := dictInsert net.wires r.2 name })

/-- `DeviceConfig.process_net` (deviceconfig.py lines 294-314): frozen check,
fresh `Net(idx)`, the body loop, then `self._nets[idx] = net` with Python
list indexing (silently overwriting any previous net at that index). -/
def DeviceConfig.process_net (dc : DeviceConfig) (idx : Int)
    (lines : List NetLine) : Except PyError DeviceConfig :=
  if dc.frozen then .error frozenError
  else do
    let st ← lines.foldlM processNetLine (dc, { index := idx, wires := [], frozen := false })
    let nets ← pySet st.1.nets idx (some st.2)
    .ok { st.1 with nets := nets }

/-- Building the `src_net_to_bit_vals_dict` of a routing/buffer section body
(deviceconfig.py lines 333-337): each body line holds a binary pattern and a
source net index; the dict is keyed by `self._nets[src_net_idx]` (modelled
by the resolved slot) and maps it to the parsed pattern value. -/
def buildSrcNetDict (nets : List (Option Net)) (lines : List (Nat × Int)) :
    Except PyError (List (Nat × Nat)) :=
  lines.foldlM (fun (d : List (Nat × Nat)) line =>
    match pyIdx nets.length line.2 with
    | none => .error .indexError
    | some src => .ok (dictInsert d src line.1)) []

/-- `DeviceConfig.process_routing_switch` (deviceconfig.py lines 316-339):
frozen check; the header's bit coordinates are reversed before storage;
the body builds the source-net dict; the switch is constructed with
`self._nets[dst_net_idx]` and appended to `self._tiles[y][x]` through
`add_routing_switch` (which checks the tile's frozen flag). -/
def DeviceConfig.process_routing_switch (dc : DeviceConfig) (x y : Int)
    (dst_net_idx : Int) (bit_coords : List Coord) (lines : List (Nat × Int)) :
    Except PyError DeviceConfig :=
  if dc.frozen then .error frozenError
  else do
    let config_bit_coordinates := bit_coords.reverse
    let dict ← buildSrcNetDict dc.nets lines
    match pyIdx dc.nets.length dst_net_idx with
    | none => .error .indexError
    | some dst => do
      let rr : RoutingResource :=
        { dst_net := dst, config_bit_coordinates, src_net_to_bit_vals := dict,
          connection := none }
      let r ← gridModify dc.tiles x y (fun cell =>
        match cell with
        | none => .error .attributeError
        | some t =>
          if t.frozen then .error frozenError
          else .ok (some { t with routing_switches := t.routing_switches ++ [rr] }))
      .ok { dc with tiles := r.1 }

/-- `DeviceConfig.process_buffer` (deviceconfig.py lines 341-364): identical
to `process_routing_switch` except the resource is appended to the tile's
buffer list. -/
def DeviceConfig.process_buffer (dc : DeviceConfig) (x y : Int)
    (dst_net_idx : Int) (bit_coords : List Coord) (lines : List (Nat × Int)) :
    Except PyError DeviceConfig :=
  if dc.frozen then .error frozenError
  else do
    let config_bit_coordinates := bit_coords.reverse
    let dict ← buildSrcNetDict dc.nets lines
    match pyIdx dc.nets.length dst_net_idx with
    | none => .error .indexError
    | some dst => do
      let rr : RoutingResource :=
        { dst_net := dst, config_bit_coordinates, src_net_to_bit_vals := dict,
          connection := none }
      let r ← gridModify dc.tiles x y (fun cell =>
        match cell with
        | none => .error .attributeError
        | some t =>
          if t.frozen then .error frozenError
          else .ok (some { t with buffers := t.buffers ++ [rr] }))
      .ok { dc with tiles := r.1 }

/-- `DeviceConfig.freeze` (deviceconfig.py lines 390-401): sets the flag,
freezes every non-empty grid cell (empty cells are skipped by the
`is not None` test), then calls `net.freeze()` on every slot of the net
array with no such test — a never-ingested slot holds `None`, whose missing
`freeze` attribute raises `AttributeError`.  The partially-frozen state
Python leaves behind on that failure is collapsed into the error outcome. -/
def DeviceConfig.freeze (dc : DeviceConfig) : Except PyError DeviceConfig :=
  let tiles := dc.tiles.map (fun row => row.map (fun cell => cell.map PlacedTile.freeze))
  if dc.nets.any (fun n => n.isNone) then .error .attributeError
  else
    .ok { dc with
          frozen := true
          tiles := tiles
          nets := dc.nets.map (fun n => n.map Net.freeze) }

/-- `DeviceConfig.reset` (deviceconfig.py lines 441-446): the loop
`for tile in self._tiles: tile.reset()` iterates over `self._tiles`, whose
elements are the grid's rows — Python lists, which have no `reset`
attribute — so the first iteration of a non-empty grid raises
`AttributeError`; with zero rows the loop body never runs. -/
def DeviceConfig.reset (dc : DeviceConfig) : Except PyError DeviceConfig :=
  match dc.tiles with
  | [] => .ok dc
  | _ :: _ => .error .attributeError

/-- In a dict with no duplicate keys, membership of a pair determines the
lookup result. -/
theorem lookup_of_mem_nodup {l : List (Nat × Nat)} (hk : (l.map Prod.fst).Nodup)
    {a b : Nat} (h : (a, b) ∈ l) : l.lookup a = some b := by
  induction l with
  | nil => cases h
  | cons p t ih =>
    simp only [List.map_cons, List.nodup_cons] at hk
    rcases List.mem_cons.mp h with heq | hmem
    · rw [List.lookup]
      have : a == p.1 := by rw [← heq]; simp
      simp [this, ← heq]
    · have hne : a ≠ p.1 := by
        intro hcontra
        exact hk.1 (hcontra ▸ List.mem_map.mpr ⟨(a, b), hmem, rfl⟩)
      rw [List.lookup]
      have : (a == p.1) = false := by simp [hne]
      simp [this, ih hk.2 hmem]

/-- Claim C6: `connect(srcNet)` fails with the unknown-source error exactly
when `srcNet` is not in the candidate table and otherwise replaces any
existing connection; `set_config_bits 0` always disconnects; and for every
nonzero `v` matched by no candidate's stored pattern, `set_config_bits v`
fails with the invalid-pattern error (the returned error carries no new
state, so the prior connection is untouched). -/
theorem C6_routing_resource_laws :
    (∀ (rr : RoutingResource) (net : Nat),
        rr.src_net_to_bit_vals.lookup net = none →
        rr.connect net = .error (.exception "Invalid source net"))
    ∧ (∀ (rr : RoutingResource) (net bits : Nat),
        rr.src_net_to_bit_vals.lookup net = some bits →
        rr.connect net = .ok { rr with connection := some net })
    ∧ (∀ rr : RoutingResource,
        rr.set_config_bits 0 = .ok { rr with connection := none })
    ∧ (∀ (rr : RoutingResource) (v : Nat), v ≠ 0 →
        (∀ p ∈ rr.src_net_to_bit_vals, p.2 ≠ v) →
        rr.set_config_bits v = .error (.exception "Invalid routing resource bit config")) := by
  refine ⟨?_, ?_, ?_, ?_⟩
  · intro rr net h
    simp [RoutingResource.connect, h]
  · intro rr net bits h
    simp [RoutingResource.connect, h]
  · intro rr
    simp [RoutingResource.set_config_bits]
  · intro rr v hv hall
    have hfind : rr.src_net_to_bit_vals.find? (fun p => p.2 == v) = none := by
      rw [List.find?_eq_none]
      intro p hp
      simpa using hall p hp
    simp [RoutingResource.set_config_bits, hv, hfind]

/-- A concrete routing resource: candidates net 5 with pattern 1 and net 6
with pattern 2, currently connected to net 5. -/
def rrEx : RoutingResource :=
  { dst_net := 0
    config_bit_coordinates := [(0, 0), (1, 0)]
    src_net_to_bit_vals := [(5, 1), (6, 2)]
    connection := some 5 }

/-- Witness for C6 at `rrEx`: net 9 is unknown, net 6 replaces the live
connection, pattern 0 disconnects, and pattern 3 matches no candidate. -/
theorem C6_witness :
    rrEx.connect 9 = .error (.exception "Invalid source net")
    ∧ rrEx.connect 6 = .ok { rrEx with connection := some 6 }
    ∧ rrEx.set_config_bits 0 = .ok { rrEx with connection := none }
    ∧ rrEx.set_config_bits 3 = .error (.exception "Invalid routing resource bit config") :=
  ⟨C6_routing_resource_laws.1 rrEx 9 (by decide),
   C6_routing_resource_laws.2.1 rrEx 6 2 (by decide),
   C6_routing_resource_laws.2.2.1 rrEx,
   C6_routing_resource_laws.2.2.2 rrEx 3 (by decide) (by decide)⟩

/-- Claim C10: a candidate whose stored pattern is 0 can be connected, but
the connection then reads back as config bits 0 — indistinguishable from
disconnected — and feeding those bits to `set_config_bits` disconnects;
moreover no `set_config_bits` call can ever select that candidate. -/
theorem C10_zero_pattern_candidate (rr : RoutingResource) (net : Nat)
    (hk : (rr.src_net_to_bit_vals.map Prod.fst).Nodup)
    (h0 : rr.src_net_to_bit_vals.lookup net = some 0) :
    (∃ rr', rr.connect net = .ok rr' ∧ rr'.connection = some net
        ∧ rr'.get_config_bits = 0
        ∧ rr'.set_config_bits rr'.get_config_bits = .ok { rr' with connection := none })
    ∧ (∀ (v : Nat) (rr2 : RoutingResource),
        rr.set_config_bits v = .ok rr2 → rr2.connection ≠ some net) := by
  constructor
  · refine ⟨{ rr with connection := some net }, ?_, rfl, ?_, ?_⟩
    · simp [RoutingResource.connect, h0]
    · simp [RoutingResource.get_config_bits, h0]
    · have hbits : RoutingResource.get_config_bits { rr with connection := some net } = 0 := by
        simp [RoutingResource.get_config_bits, h0]
      rw [hbits]
      simp [RoutingResource.set_config_bits]
  · intro v rr2 hset hconn
    unfold RoutingResource.set_config_bits at hset
    by_cases hv : v = 0
    · rw [if_pos hv] at hset
      injection hset with h
      rw [← h] at hconn
      simp at hconn
    · rw [if_neg hv] at hset
      cases hfind : rr.src_net_to_bit_vals.find? (fun p => p.2 == v) with
      | none => rw [hfind] at hset; cases hset
      | some p =>
        rw [hfind] at hset
        injection hset with h
        have hp1 : p.1 = net := by
          rw [← h] at hconn
          simpa using hconn
        have hmem : p ∈ rr.src_net_to_bit_vals := List.mem_of_find?_eq_some hfind
        have hpv : p.2 = v := by
          have := List.find?_some hfind
          simpa using this
        have hlk : rr.src_net_to_bit_vals.lookup net = some p.2 := by
          rw [← hp1]
          exact lookup_of_mem_nodup hk (by simpa using hmem)
        rw [h0] at hlk
        injection hlk with h2
        exact hv (by omega)

/-- A concrete routing resource with a pattern-0 candidate: net 7 has stored
pattern 0, net 3 has pattern 2. -/
def rr0ex : RoutingResource :=
  { dst_net := 1
    config_bit_coordinates := [(0, 0)]
    src_net_to_bit_vals := [(7, 0), (3, 2)]
    connection := none }

/-- Witness for C10 at `rr0ex` and net 7. -/
theorem C10_witness :
    (∃ rr', rr0ex.connect 7 = .ok rr' ∧ rr'.connection = some 7
        ∧ rr'.get_config_bits = 0
        ∧ rr'.set_config_bits rr'.get_config_bits = .ok { rr' with connection := none })
    ∧ ({ rr0ex with connection := some 3 } : RoutingResource).connection ≠ some 7 :=
  ⟨(C10_zero_pattern_candidate rr0ex 7 (by decide) (by decide)).1,
   (C10_zero_pattern_candidate rr0ex 7 (by decide) (by decide)).2 2
     { rr0ex with connection := some 3 } rfl⟩

/-- Claim C2 (code bug): on any device with at least one grid row,
`DeviceConfig.reset` raises `AttributeError` instead of resetting the tiles,
because its loop iterates over the grid's rows (Python lists, which have no
`reset` attribute) rather than over the tiles.  Shown here on the 2×2 device
of the spec's scenario. -/
theorem C2_reset_raises :
    DeviceConfig.reset (DeviceConfig.init "1k" 2 2 3) = .error .attributeError
    ∧ (DeviceConfig.init "1k" 2 2 3).tiles.length = 2 :=
  ⟨rfl, rfl⟩

/-- Claim C9: `freeze()` raises (`AttributeError`, from `None.freeze()`)
exactly when some net slot was never ingested; when every slot holds a net
it completes, marking the device frozen. -/
theorem C9_freeze_requires_all_nets (dc : DeviceConfig) :
    (dc.nets.any (fun n => n.isNone) = true →
      DeviceConfig.freeze dc = .error .attributeError)
    ∧ (dc.nets.any (fun n => n.isNone) = false →
      ∃ dc', DeviceConfig.freeze dc = .ok dc' ∧ dc'.frozen = true) := by
  constructor
  · intro h
    simp [DeviceConfig.freeze, h]
  · intro h
    refine ⟨{ dc with
              frozen := true
              tiles := dc.tiles.map (fun row => row.map (fun cell => cell.map PlacedTile.freeze))
              nets := dc.nets.map (fun n => n.map Net.freeze) }, ?_, rfl⟩
    simp [DeviceConfig.freeze, h]

/-- Witness for C9: a device with two never-ingested net slots fails to
freeze; one with an empty net array freezes. -/
theorem C9_witness :
    DeviceConfig.freeze (DeviceConfig.init "1k" 1 1 2) = .error .attributeError
    ∧ ∃ dc', DeviceConfig.freeze (DeviceConfig.init "1k" 1 1 0) = .ok dc'
        ∧ dc'.frozen = true :=
  ⟨(C9_freeze_requires_all_nets (DeviceConfig.init "1k" 1 1 2)).1 (by decide),
   (C9_freeze_requires_all_nets (DeviceConfig.init "1k" 1 1 0)).2 (by decide)⟩

/-- A resolved Python index is within bounds. -/
theorem pyIdx_lt {n : Nat} {i : Int} {k : Nat} (h : pyIdx n i = some k) : k < n := by
  unfold pyIdx at h
  split at h
  · split at h
    · injection h with h
      omega
    · cases h
  · split at h
    · injection h with h
      omega
    · cases h

/-- Claim C3, counterexample: on a fresh 1×1 device whose logic-tile schema
was never ingested, `process_logic_tile` does not fail with a missing-schema
error — it succeeds and inserts a `LogicTile` bound to `None`. -/
theorem C3_counterexample :
    DeviceConfig.process_logic_tile (DeviceConfig.init "dev" 1 1 0) 0 0 =
      .ok { DeviceConfig.init "dev" 1 1 0 with
            tiles := [[some (LogicTile.place 0 0 none)]] }
    ∧ (DeviceConfig.init "dev" 1 1 0).logic_tile_bit_config = none :=
  ⟨rfl, rfl⟩

/-- The `Inhabited` default of a list (used by `pyGet`) is the empty list. -/
theorem default_eq_nil : (default : List α) = [] := rfl

/-- Claim C3, amended: a tile placement made before the logic-tile schema is
ingested does not fail — whenever the coordinates resolve, the call succeeds
and inserts a fresh `LogicTile` whose schema reference is `None` (failures
are deferred to later uses of the missing schema). -/
theorem C3_amended (dc : DeviceConfig) (x y : Int) (ry rx : Nat)
    (hf : dc.frozen = false)
    (hcfg : dc.logic_tile_bit_config = none)
    (hy : pyIdx dc.tiles.length y = some ry)
    (hx : pyIdx (dc.tiles.getD ry []).length x = some rx) :
    DeviceConfig.process_logic_tile dc x y =
      .ok { dc with tiles := dc.tiles.set ry ((dc.tiles.getD ry []).set rx
            (some (LogicTile.place x y none))) } := by
  have hlen : ((dc.tiles.getD ry []).set rx (some (LogicTile.place x y none))).length
      = (dc.tiles.getD ry []).length := List.length_set ..
  simp only [DeviceConfig.process_logic_tile, hf, Bool.false_eq_true, if_false,
    pyGet, pySet, hy, hcfg, hlen, hx, bind, Except.bind, default_eq_nil]

/-- Witness for C3's amended theorem: the fresh 1×1 schemaless device. -/
theorem C3_amended_witness :
    DeviceConfig.process_logic_tile (DeviceConfig.init "dev2" 1 1 0) 0 0 =
      .ok { DeviceConfig.init "dev2" 1 1 0 with
            tiles := [[some (LogicTile.place 0 0 none)]] } :=
  C3_amended (DeviceConfig.init "dev2" 1 1 0) 0 0 0 0 rfl rfl (by decide) (by decide)

/-- An in-bounds `getD` lookup is a member of the list. -/
theorem getD_mem {l : List α} {k : Nat} (hk : k < l.length) (d : α) :
    l.getD k d ∈ l := by
  rw [List.getD_eq_getElem l d hk]
  exact List.getElem_mem hk

/-- Claim C7, counterexample: on a 2×2 device, placing a logic tile at
`(-1, -1)` does not fail with an out-of-range error — Python's negative
indexing resolves the coordinates from the end of each list, so the call
succeeds and overwrites the grid cell in the last row and last column. -/
theorem C7_counterexample :
    DeviceConfig.process_logic_tile (DeviceConfig.init "dev" 2 2 0) (-1) (-1) =
      .ok { DeviceConfig.init "dev" 2 2 0 with
            tiles := [[none, none], [none, some (LogicTile.place (-1) (-1) none)]] } :=
  rfl

/-- Claim C7, amended: a placement whose declared `(x, y)` does not resolve
under Python list indexing (`x ≥ width`, `y ≥ height`, `x < -width` or
`y < -height`) fails with `IndexError` and returns no new state; but
negative coordinates within `[-height, -1]` / `[-width, -1]` resolve to
cells counted from the end and the placement succeeds there. -/
theorem C7_amended (dc : DeviceConfig) (x y : Int) (w h : Nat)
    (hf : dc.frozen = false)
    (hh : dc.tiles.length = h)
    (hw : ∀ row ∈ dc.tiles, row.length = w) :
    (pyIdx h y = none → DeviceConfig.process_logic_tile dc x y = .error .indexError)
    ∧ (∀ ry, pyIdx h y = some ry → pyIdx w x = none →
        DeviceConfig.process_logic_tile dc x y = .error .indexError)
    ∧ (∀ ry rx, pyIdx h y = some ry → pyIdx w x = some rx →
        DeviceConfig.process_logic_tile dc x y =
          .ok { dc with tiles := dc.tiles.set ry ((dc.tiles.getD ry []).set rx
                (some (LogicTile.place x y dc.logic_tile_bit_config))) }) := by
  refine ⟨?_, ?_, ?_⟩
  · intro hy
    simp only [DeviceConfig.process_logic_tile, hf, Bool.false_eq_true, if_false,
      pyGet, hh, hy, bind, Except.bind]
  · intro ry hy hx
    have hry : ry < dc.tiles.length := by
      rw [hh]
      exact pyIdx_lt hy
    have hrow : (dc.tiles.getD ry []).length = w := hw _ (getD_mem hry [])
    simp only [DeviceConfig.process_logic_tile, hf, Bool.false_eq_true, if_false,
      pyGet, pySet, hh, hy, default_eq_nil, hrow, hx, bind, Except.bind]
  · intro ry rx hy hx
    have hry : ry < dc.tiles.length := by
      rw [hh]
      exact pyIdx_lt hy
    have hrow : (dc.tiles.getD ry []).length = w := hw _ (getD_mem hry [])
    have hlen : ((dc.tiles.getD ry []).set rx
        (some (LogicTile.place x y dc.logic_tile_bit_config))).length
        = (dc.tiles.getD ry []).length := List.length_set ..
    simp only [DeviceConfig.process_logic_tile, hf, Bool.false_eq_true, if_false,
      pyGet, pySet, hh, hy, default_eq_nil, hlen, hrow, hx, bind, Except.bind]

/-- Witness for C7's amended theorem on the 2×2 device: row 2 is out of
range, column 5 is out of range from row 0, and `(-1, -1)` resolves to the
last cell. -/
theorem C7_amended_witness :
    DeviceConfig.process_logic_tile (DeviceConfig.init "dev" 2 2 0) 0 2 = .error .indexError
    ∧ DeviceConfig.process_logic_tile (DeviceConfig.init "dev" 2 2 0) 5 0 = .error .indexError
    ∧ DeviceConfig.process_logic_tile (DeviceConfig.init "dev" 2 2 0) (-1) (-1) =
        .ok { DeviceConfig.init "dev" 2 2 0 with
              tiles := (DeviceConfig.init "dev" 2 2 0).tiles.set 1
                (((DeviceConfig.init "dev" 2 2 0).tiles.getD 1 []).set 1
                  (some (LogicTile.place (-1) (-1)
                    (DeviceConfig.init "dev" 2 2 0).logic_tile_bit_config))) } :=
  ⟨(C7_amended (DeviceConfig.init "dev" 2 2 0) 0 2 2 2 rfl rfl
      (by decide)).1 (by decide),
   (C7_amended (DeviceConfig.init "dev" 2 2 0) 5 0 2 2 rfl rfl
      (by decide)).2.1 0 (by decide) (by decide),
   (C7_amended (DeviceConfig.init "dev" 2 2 0) (-1) (-1) 2 2 rfl rfl
      (by decide)).2.2 1 1 (by decide) (by decide)⟩

/-- A concrete, schema-valid IO-tile bit configuration: an 8×5 bitmap with
all 36 field coordinates pairwise distinct and in range. -/
def cfgIoEx : IoTileBitConfig :=
  { width := 8
    height := 5
    col_buf_ctrl_set_bits := [(0, 0), (1, 0), (2, 0), (3, 0), (4, 0), (5, 0), (6, 0), (7, 0)]
    iob_0_pintype := [(0, 1), (1, 1), (2, 1), (3, 1), (4, 1), (5, 1)]
    iob_1_pintype := [(0, 2), (1, 2), (2, 2), (3, 2), (4, 2), (5, 2)]
    icegate := (6, 1)
    io_ctrl_ie_0 := (7, 1)
    io_ctrl_ie_1 := (6, 2)
    io_ctrl_lvds := (7, 2)
    io_ctrl_ren_0 := (0, 3)
    io_ctrl_ren_1 := (1, 3)
    negclk := (2, 3)
    pll_config := [(3, 3), (4, 3), (5, 3), (6, 3), (7, 3), (0, 4), (1, 4), (2, 4), (3, 4)] }

/-- An IO tile holding the schema-valid 8-bit value `col_buf_ctrl = 2`, all
other fields zero, with no routing resources. -/
def tIoEx : IoTile :=
  { col_buf_ctrl := 2
    iob_0_pintype := 0
    iob_1_pintype := 0
    icegate := false
    io_ctrl_ie_0 := false
    io_ctrl_ie_1 := false
    io_ctrl_lvds := false
    io_ctrl_ren_0 := false
    io_ctrl_ren_1 := false
    negclk := false
    pll_config := 0
    routing_switches := []
    buffers := [] }

/-- Claim C1 (code bug): the encode/decode round trip does not reproduce an
IO tile's `col_buf_ctrl` value.  `IoTile.generate_bitstream` writes only
`int(bool(col_buf_ctrl))` at the first bound coordinate (deviceconfig.py
line 666, which lacks the per-bit loop used for every other multi-bit field
and by `IoTile.process_bitstream` itself), so encoding `col_buf_ctrl = 2`
and decoding the result yields `1`, not `2`. -/
theorem C1_io_roundtrip_bug :
    (IoTile.process_bitstream cfgIoEx tIoEx
        (IoTile.generate_bitstream cfgIoEx tIoEx)).map IoTile.col_buf_ctrl = .ok 1
    ∧ tIoEx.col_buf_ctrl = 2 :=
  ⟨rfl, rfl⟩

/-- Logic-tile schema body lines populating every slot except `CarryInSet`:
the eight `ColBufCtrl` slots, the eight (here one-bit) `LC` slots, and
`NegClk`. -/
def c4BaseLines : List SchemaLine :=
  [("ColBufCtrl.glb_netwk_0", [(0, 0)]),
   ("ColBufCtrl.glb_netwk_1", [(1, 0)]),
   ("ColBufCtrl.glb_netwk_2", [(2, 0)]),
   ("ColBufCtrl.glb_netwk_3", [(3, 0)]),
   ("ColBufCtrl.glb_netwk_4", [(4, 0)]),
   ("ColBufCtrl.glb_netwk_5", [(5, 0)]),
   ("ColBufCtrl.glb_netwk_6", [(6, 0)]),
   ("ColBufCtrl.glb_netwk_7", [(7, 0)]),
   ("LC_0", [(0, 1)]),
   ("LC_1", [(1, 1)]),
   ("LC_2", [(2, 1)]),
   ("LC_3", [(3, 1)]),
   ("LC_4", [(4, 1)]),
   ("LC_5", [(5, 1)]),
   ("LC_6", [(6, 1)]),
   ("LC_7", [(7, 1)]),
   ("NegClk", [(0, 2)])]

/-- The builder state after consuming `c4BaseLines`. -/
def c4BaseBuilder : LogicTileBitConfigBuilder :=
  { carry_in_set_bit := none
    col_buf_ctrl_set_bits :=
      [some (0, 0), some (1, 0), some (2, 0), some (3, 0),
       some (4, 0), some (5, 0), some (6, 0), some (7, 0)]
    lc_set_bits :=
      [some [(0, 1)], some [(1, 1)], some [(2, 1)], some [(3, 1)],
       some [(4, 1)], some [(5, 1)], some [(6, 1)], some [(7, 1)]]
    neg_clk_set_bit := some (0, 2) }

/-- Claim C4, counterexample: a schema section whose body populates the
`CarryInSet` slot twice is not rejected — `process_logic_tile_bit_config`
succeeds, and the later line's coordinate `(2, 2)` silently overwrites the
earlier `(1, 2)`. -/
theorem C4_counterexample :
    (DeviceConfig.process_logic_tile_bit_config (DeviceConfig.init "c4" 1 1 0) 10 10
        (c4BaseLines ++ [("CarryInSet", [(1, 2)]), ("CarryInSet", [(2, 2)])])).map
      (fun dc => dc.logic_tile_bit_config.map (fun cfg => cfg.carry_in_set_bit)) =
      .ok (some (2, 2)) :=
  rfl

/-- Claim C4, amended: the incompleteness half of the claim holds — if after
consuming all body lines some required slot is unpopulated the call fails
with the incomplete-schema error — but duplicate population of a slot is
not an error: the later line silently overwrites the earlier binding (shown
for `CarryInSet`: appending two further `CarryInSet` lines to any body
leaves the last coordinate in the built schema). -/
theorem C4_schema_ingestion :
    (∀ (dc : DeviceConfig) (w h : Nat) (lines : List SchemaLine)
        (b : LogicTileBitConfigBuilder),
      dc.frozen = false → logicSchemaFold lines = .ok b →
      logicBuilderComplete b = false →
      DeviceConfig.process_logic_tile_bit_config dc w h lines =
        .error (.exception "Incomplete logic tile config"))
    ∧ (∀ (dc : DeviceConfig) (w h : Nat) (lines : List SchemaLine)
          (b : LogicTileBitConfigBuilder) (c c' : Coord),
      dc.frozen = false → logicSchemaFold lines = .ok b →
      b.col_buf_ctrl_set_bits.all Option.isSome = true →
      b.lc_set_bits.all Option.isSome = true →
      b.neg_clk_set_bit.isSome = true →
      ∃ cfg, DeviceConfig.process_logic_tile_bit_config dc w h
          (lines ++ [("CarryInSet", [c]), ("CarryInSet", [c'])]) =
            .ok { dc with logic_tile_bit_config := some cfg }
        ∧ cfg.carry_in_set_bit = c') := by
  constructor
  · intro dc w h lines b hf hfold hincomp
    simp only [DeviceConfig.process_logic_tile_bit_config, hf, Bool.false_eq_true, if_false,
      hfold, bind, Except.bind, hincomp, if_false]
  · intro dc w h lines b c c' hf hfold hcb hlc hnc
    have hstep : logicSchemaFold (lines ++ [("CarryInSet", [c]), ("CarryInSet", [c'])]) =
        .ok { b with carry_in_set_bit := some c' } := by
      unfold logicSchemaFold at hfold ⊢
      rw [List.foldlM_append, hfold]
      rfl
    have hcomp : logicBuilderComplete { b with carry_in_set_bit := some c' } = true := by
      simp [logicBuilderComplete, hcb, hlc, hnc]
    refine ⟨LogicTileBitConfigBuilder.build { b with carry_in_set_bit := some c' } w h,
      ?_, rfl⟩
    simp only [DeviceConfig.process_logic_tile_bit_config, hf, Bool.false_eq_true, if_false,
      hstep, bind, Except.bind, hcomp, if_true]

/-- Witness for C4: the empty body is incomplete and fails; the complete
body with a duplicated `CarryInSet` succeeds with the last binding. -/
theorem C4_witness :
    DeviceConfig.process_logic_tile_bit_config (DeviceConfig.init "c4b" 1 1 0) 10 10 [] =
      .error (.exception "Incomplete logic tile config")
    ∧ ∃ cfg, DeviceConfig.process_logic_tile_bit_config (DeviceConfig.init "c4b" 1 1 0) 10 10
          (c4BaseLines ++ [("CarryInSet", [(1, 2)]), ("CarryInSet", [(2, 2)])]) =
            .ok { DeviceConfig.init "c4b" 1 1 0 with logic_tile_bit_config := some cfg }
        ∧ cfg.carry_in_set_bit = (2, 2) :=
  ⟨C4_schema_ingestion.1 (DeviceConfig.init "c4b" 1 1 0) 10 10 []
      { carry_in_set_bit := none
        col_buf_ctrl_set_bits := List.replicate 8 none
        lc_set_bits := List.replicate 8 none
        neg_clk_set_bit := none } rfl rfl rfl,
   C4_schema_ingestion.2 (DeviceConfig.init "c4b" 1 1 0) 10 10 c4BaseLines
      c4BaseBuilder (1, 2) (2, 2) rfl rfl rfl rfl rfl⟩

/-- Claim C5: on a frozen device every ingestion call — the four schema
ingestions, the four tile placements, net ingestion, routing-switch and
buffer ingestion — fails with the frozen-violation error before touching
anything (each checks the flag first and the error outcome carries no new
state), while `connect` (on a declared candidate) and `disconnect` on any
routing resource still succeed. -/
theorem C5_freeze_law (dc : DeviceConfig) (hf : dc.frozen = true) :
    (∀ (w h : Nat) (lines : List SchemaLine),
        dc.process_logic_tile_bit_config w h lines = .error frozenError)
    ∧ (∀ (w h : Nat) (lines : List SchemaLine),
        dc.process_io_tile_bit_config w h lines = .error frozenError)
    ∧ (∀ (w h : Nat) (lines : List SchemaLine),
        dc.process_ramb_tile_bit_config w h lines = .error frozenError)
    ∧ (∀ (w h : Nat) (lines : List SchemaLine),
        dc.process_ramt_tile_bit_config w h lines = .error frozenError)
    ∧ (∀ x y : Int, dc.process_logic_tile x y = .error frozenError)
    ∧ (∀ x y : Int, dc.process_io_tile x y = .error frozenError)
    ∧ (∀ x y : Int, dc.process_ramb_tile x y = .error frozenError)
    ∧ (∀ x y : Int, dc.process_ramt_tile x y = .error frozenError)
    ∧ (∀ (idx : Int) (lines : List NetLine),
        dc.process_net idx lines = .error frozenError)
    ∧ (∀ (x y dst : Int) (coords : List Coord) (lines : List (Nat × Int)),
        dc.process_routing_switch x y dst coords lines = .error frozenError)
    ∧ (∀ (x y dst : Int) (coords : List Coord) (lines : List (Nat × Int)),
        dc.process_buffer x y dst coords lines = .error frozenError)
    ∧ (∀ (rr : RoutingResource) (net : Nat),
        (rr.src_net_to_bit_vals.lookup net).isSome = true →
        rr.connect net = .ok { rr with connection := some net })
    ∧ (∀ rr : RoutingResource, rr.disconnect = { rr with connection := none }) := by
  refine ⟨?_, ?_, ?_, ?_, ?_, ?_, ?_, ?_, ?_, ?_, ?_, ?_, ?_⟩
  · intro w h lines
    simp [DeviceConfig.process_logic_tile_bit_config, hf]
  · intro w h lines
    simp [DeviceConfig.process_io_tile_bit_config, hf]
  · intro w h lines
    simp [DeviceConfig.process_ramb_tile_bit_config, hf]
  · intro w h lines
    simp [DeviceConfig.process_ramt_tile_bit_config, hf]
  · intro x y
    simp [DeviceConfig.process_logic_tile, hf]
  · intro x y
    simp [DeviceConfig.process_io_tile, hf]
  · intro x y
    simp [DeviceConfig.process_ramb_tile, hf]
  · intro x y
    simp [DeviceConfig.process_ramt_tile, hf]
  · intro idx lines
    simp [DeviceConfig.process_net, hf]
  · intro x y dst coords lines
    simp [DeviceConfig.process_routing_switch, hf]
  · intro x y dst coords lines
    simp [DeviceConfig.process_buffer, hf]
  · intro rr net h
    simp [RoutingResource.connect, h]
  · intro rr
    rfl

/-- A concrete frozen device. -/
def dcFrozenEx : DeviceConfig :=
  { DeviceConfig.init "fz" 1 1 0 with frozen := true }

/-- Witness for C5 at `dcFrozenEx` (and `rrEx` for the routing part):
every ingestion entry point rejects, and connect/disconnect still work. -/
theorem C5_witness :
    dcFrozenEx.process_logic_tile_bit_config 1 1 [] = .error frozenError
    ∧ dcFrozenEx.process_io_tile_bit_config 1 1 [] = .error frozenError
    ∧ dcFrozenEx.process_ramb_tile_bit_config 1 1 [] = .error frozenError
    ∧ dcFrozenEx.process_ramt_tile_bit_config 1 1 [] = .error frozenError
    ∧ dcFrozenEx.process_logic_tile 0 0 = .error frozenError
    ∧ dcFrozenEx.process_io_tile 0 0 = .error frozenError
    ∧ dcFrozenEx.process_ramb_tile 0 0 = .error frozenError
    ∧ dcFrozenEx.process_ramt_tile 0 0 = .error frozenError
    ∧ dcFrozenEx.process_net 0 [] = .error frozenError
    ∧ dcFrozenEx.process_routing_switch 0 0 0 [] [] = .error frozenError
    ∧ dcFrozenEx.process_buffer 0 0 0 [] [] = .error frozenError
    ∧ rrEx.connect 6 = .ok { rrEx with connection := some 6 }
    ∧ rrEx.disconnect = { rrEx with connection := none } :=
  ⟨(C5_freeze_law dcFrozenEx rfl).1 1 1 [],
   (C5_freeze_law dcFrozenEx rfl).2.1 1 1 [],
   (C5_freeze_law dcFrozenEx rfl).2.2.1 1 1 [],
   (C5_freeze_law dcFrozenEx rfl).2.2.2.1 1 1 [],
   (C5_freeze_law dcFrozenEx rfl).2.2.2.2.1 0 0,
   (C5_freeze_law dcFrozenEx rfl).2.2.2.2.2.1 0 0,
   (C5_freeze_law dcFrozenEx rfl).2.2.2.2.2.2.1 0 0,
   (C5_freeze_law dcFrozenEx rfl).2.2.2.2.2.2.2.1 0 0,
   (C5_freeze_law dcFrozenEx rfl).2.2.2.2.2.2.2.2.1 0 [],
   (C5_freeze_law dcFrozenEx rfl).2.2.2.2.2.2.2.2.2.1 0 0 0 [] [],
   (C5_freeze_law dcFrozenEx rfl).2.2.2.2.2.2.2.2.2.2.1 0 0 0 [] [],
   (C5_freeze_law dcFrozenEx rfl).2.2.2.2.2.2.2.2.2.2.2.1 rrEx 6 (by decide),
   (C5_freeze_law dcFrozenEx rfl).2.2.2.2.2.2.2.2.2.2.2.2 rrEx⟩

/-- Reading back an in-bounds `List.set` write. -/
theorem list_getD_set_self (l : List α) (i : Nat) (a d : α) (h : i < l.length) :
    (l.set i a).getD i d = a := by
  induction l generalizing i with
  | nil => simp at h
  | cons b t ih =>
    cases i with
    | zero => simp [List.set]
    | succ j =>
      simp only [List.set, List.getD_cons_succ]
      exact ih j (by simpa using h)

/-- A `List.set` write leaves every other position unchanged. -/
theorem list_getD_set_other (l : List α) (i j : Nat) (a d : α) (h : i ≠ j) :
    (l.set i a).getD j d = l.getD j d := by
  induction l generalizing i j with
  | nil => simp [List.set]
  | cons b t ih =>
    cases i with
    | zero =>
      cases j with
      | zero => exact absurd rfl h
      | succ k => simp [List.set, List.getD_cons_succ]
    | succ i2 =>
      cases j with
      | zero => simp [List.set, List.getD_cons_zero]
      | succ k =>
        simp only [List.set, List.getD_cons_succ]
        exact ih i2 k (fun hh => h (by rw [hh]))

/-- `set_bit` preserves the bitmap's shape. -/
theorem set_bit_wf {g : Grid} {w h : Nat} (hg : gridWF g w h) (c : Coord) (v : Nat) :
    gridWF (set_bit g c v) w h := by
  constructor
  · simp [set_bit, hg.1]
  · intro row hrow
    unfold set_bit at hrow
    by_cases hy : c.2 < g.length
    · rcases List.mem_or_eq_of_mem_set hrow with hmem | heq
      · exact hg.2 row hmem
      · rw [heq, List.length_set]
        exact hg.2 _ (getD_mem hy [])
    · rw [List.set_eq_of_length_le (by omega)] at hrow
      exact hg.2 row hrow

/-- Reading the bit just written by an in-bounds `set_bit`. -/
theorem get_set_bit_self {g : Grid} {w h : Nat} (hg : gridWF g w h) (c : Coord)
    (v : Nat) (hx : c.1 < w) (hy : c.2 < h) :
    get_bit (set_bit g c v) c = if v = 0 then 0 else 1 := by
  have hylen : c.2 < g.length := by rw [hg.1]; exact hy
  have hxlen : c.1 < (g.getD c.2 []).length := by
    rw [hg.2 _ (getD_mem hylen [])]
    exact hx
  unfold get_bit set_bit
  rw [list_getD_set_self _ _ _ _ hylen, list_getD_set_self _ _ _ _ hxlen]

/-- `set_bit` leaves every other coordinate unchanged. -/
theorem get_set_bit_other (g : Grid) (c c' : Coord) (v : Nat) (hne : c ≠ c') :
    get_bit (set_bit g c v) c' = get_bit g c' := by
  unfold get_bit set_bit
  by_cases hrow : c.2 = c'.2
  · have hcol : c.1 ≠ c'.1 := by
      intro hcontra
      exact hne (Prod.ext hcontra hrow)
    by_cases hylen : c.2 < g.length
    · rw [← hrow, list_getD_set_self _ _ _ _ hylen,
        list_getD_set_other _ _ _ _ _ hcol]
    · rw [List.set_eq_of_length_le (by omega)]
  · rw [list_getD_set_other _ _ _ _ _ hrow]

/-- The multi-bit encode loop leaves coordinates outside its list unchanged. -/
theorem get_writeFieldBits_of_not_mem (coords : List Coord) (g : Grid) (v : Nat)
    (c : Coord) (hc : c ∉ coords) :
    get_bit (writeFieldBits g coords v) c = get_bit g c := by
  induction coords generalizing g v with
  | nil => rfl
  | cons d ds ih =>
    have hne : d ≠ c := fun hcontra => hc (hcontra ▸ List.mem_cons_self d ds)
    rw [writeFieldBits, ih _ _ (fun hmem => hc (List.mem_cons_of_mem d hmem))]
    exact get_set_bit_other g d c _ hne

/-- The multi-bit encode loop preserves the bitmap's shape. -/
theorem writeFieldBits_wf {w h : Nat} (coords : List Coord) (g : Grid) (v : Nat)
    (hg : gridWF g w h) : gridWF (writeFieldBits g coords v) w h := by
  induction coords generalizing g v with
  | nil => exact hg
  | cons c cs ih => exact ih _ _ (set_bit_wf hg c (v % 2))

/-- Splitting one binary digit off a `mod`-by-a-power-of-two. -/
theorem mod_two_pow_succ (v n : Nat) : v % 2 ^ (n + 1) = v % 2 + 2 * (v / 2 % 2 ^ n) := by
  rw [pow_succ', Nat.mod_mul]

/-- Decoding the coordinates just encoded recovers the value modulo
`2 ^ length`. -/
theorem readFieldBits_writeFieldBits {w h : Nat} (coords : List Coord) (g : Grid)
    (v : Nat) (hg : gridWF g w h) (hnd : coords.Nodup)
    (hin : ∀ c ∈ coords, c.1 < w ∧ c.2 < h) :
    readFieldBits (writeFieldBits g coords v) coords = v % 2 ^ coords.length := by
  induction coords generalizing g v with
  | nil => simp [readFieldBits, writeFieldBits, Nat.mod_one]
  | cons c cs ih =>
    rw [writeFieldBits, readFieldBits]
    have hcin := hin c (List.mem_cons_self c cs)
    have hnotmem : c ∉ cs := (List.nodup_cons.mp hnd).1
    have h1 : get_bit (writeFieldBits (set_bit g c (v % 2)) cs (v / 2)) c
        = get_bit (set_bit g c (v % 2)) c :=
      get_writeFieldBits_of_not_mem cs _ _ c hnotmem
    have h2 : get_bit (set_bit g c (v % 2)) c = v % 2 := by
      rw [get_set_bit_self hg c _ hcin.1 hcin.2]
      rcases Nat.mod_two_eq_zero_or_one v with hm | hm <;> simp [hm]
    rw [h1, h2,
      ih (set_bit g c (v % 2)) (v / 2) (set_bit_wf hg c (v % 2))
        (List.nodup_cons.mp hnd).2 (fun d hd => hin d (List.mem_cons_of_mem c hd)),
      List.length_cons, mod_two_pow_succ]
    rcases Nat.mod_two_eq_zero_or_one v with hm | hm <;> simp [hm]

/-- Bit `i` of the encoded value lands exactly at the `i`-th bound
coordinate. -/
theorem get_writeFieldBits_at {w h : Nat} (coords : List Coord) (g : Grid)
    (v : Nat) (hg : gridWF g w h) (hnd : coords.Nodup)
    (hin : ∀ c ∈ coords, c.1 < w ∧ c.2 < h)
    (i : Nat) (hi : i < coords.length) :
    get_bit (writeFieldBits g coords v) (coords.get ⟨i, hi⟩) = v / 2 ^ i % 2 := by
  induction coords generalizing g v i with
  | nil => simp at hi
  | cons c cs ih =>
    have hcin := hin c (List.mem_cons_self c cs)
    cases i with
    | zero =>
      have hnotmem : c ∉ cs := (List.nodup_cons.mp hnd).1
      rw [writeFieldBits]
      show get_bit (writeFieldBits (set_bit g c (v % 2)) cs (v / 2)) c = v / 2 ^ 0 % 2
      rw [get_writeFieldBits_of_not_mem cs _ _ c hnotmem,
        get_set_bit_self hg c _ hcin.1 hcin.2]
      rcases Nat.mod_two_eq_zero_or_one v with hm | hm <;> simp [hm]
    | succ j =>
      rw [writeFieldBits]
      show get_bit (writeFieldBits (set_bit g c (v % 2)) cs (v / 2)) (cs.get ⟨j, by simpa using hi⟩)
          = v / 2 ^ (j + 1) % 2
      rw [ih (set_bit g c (v % 2)) (v / 2) (set_bit_wf hg c (v % 2))
        (List.nodup_cons.mp hnd).2 (fun d hd => hin d (List.mem_cons_of_mem c hd))
        j (by simpa using hi)]
      rw [Nat.div_div_eq_div_mul, ← pow_succ']

/-- Claim C8: for a multi-bit field bound to pairwise-distinct in-range
coordinates `[c0, ..., cn]` and a value `v < 2 ^ (n+1)`, the encode loop
writes bit `i` of `v` (bit 0 least significant) at `ci`, and the decode
loop recovers exactly `v` from the resulting bitmap. -/
theorem C8_bit_order (g : Grid) (w h : Nat) (coords : List Coord) (v : Nat)
    (hg : gridWF g w h) (hnd : coords.Nodup)
    (hin : ∀ c ∈ coords, c.1 < w ∧ c.2 < h)
    (hv : v < 2 ^ coords.length) :
    (∀ (i : Nat) (hi : i < coords.length),
        get_bit (writeFieldBits g coords v) (coords.get ⟨i, hi⟩) = v / 2 ^ i % 2)
    ∧ readFieldBits (writeFieldBits g coords v) coords = v := by
  constructor
  · intro i hi
    exact get_writeFieldBits_at coords g v hg hnd hin i hi
  · rw [readFieldBits_writeFieldBits coords g v hg hnd hin]
    exact Nat.mod_eq_of_lt hv

/-- Witness for C8: the three-bit field at `[(0,0), (1,0), (0,1)]` of a 2×2
zero bitmap with `v = 5` — bit 0 lands at `(0,0)` and decode returns 5. -/
theorem C8_witness :
    gridWF (zeroGrid 2 2) 2 2
    ∧ get_bit (writeFieldBits (zeroGrid 2 2) [(0, 0), (1, 0), (0, 1)] 5)
        (([(0, 0), (1, 0), (0, 1)] : List Coord).get ⟨0, by decide⟩) = 5 / 2 ^ 0 % 2
    ∧ readFieldBits (writeFieldBits (zeroGrid 2 2) [(0, 0), (1, 0), (0, 1)] 5)
        [(0, 0), (1, 0), (0, 1)] = 5 :=
  ⟨by constructor <;> decide,
   (C8_bit_order (zeroGrid 2 2) 2 2 [(0, 0), (1, 0), (0, 1)] 5
      ⟨by decide, by decide⟩ (by decide) (by decide) (by decide)).1 0 (by decide),
   (C8_bit_order (zeroGrid 2 2) 2 2 [(0, 0), (1, 0), (0, 1)] 5
      ⟨by decide, by decide⟩ (by decide) (by decide) (by decide)).2⟩
